import Mathlib

/-!
Verification of the tool-dispatch and validation layer of an Appium MCP
server (`src/server/execute-tool-method.ts` together with the tool schema
registry in `src/tools/index.ts`).

The embedding models JavaScript runtime values by the inductive type `JVal`
(rationals stand in for finite JS numbers, with an explicit `vNaN`
constructor; exotic numeric corner cases such as infinities, numeric
exponent string literals and string concatenation by `+` are collapsed to
NaN — none of the dispatch paths treated by the theorems below reach
them).  The capability provider (`AppiumClient` and its managers) is an
opaque record of methods, each returning `Except JErr JVal`, where
`.error` models a thrown JS exception.
-/

/-- Model of a JavaScript runtime value.  Objects are association lists of
string keys (JS object keys are unique in practice; lookup takes the first
occurrence). -/
inductive JVal where
  | vNum (q : ℚ)
  | vNaN
  | vStr (s : String)
  | vBool (b : Bool)
  | vNull
  | vUndefined
  | vObj (fields : List (String × JVal))
  | vArr (elems : List JVal)
deriving Repr

/-- Argument bags (`Record<string, any>`) are association lists. -/
abbrev JAssoc := List (String × JVal)

namespace JVal

/-- Key lookup on an association list; a missing key reads as `undefined`,
exactly like JS property access on an object. -/
def aGet (args : JAssoc) (k : String) : JVal :=
  match args with
  | [] => .vUndefined
  | (k', v) :: rest => if k' = k then v else aGet rest k

/-- The JS `k in obj` test on an association list. -/
def hasKeyA (args : JAssoc) (k : String) : Bool :=
  match args with
  | [] => false
  | (k', _) :: rest => if k' = k then true else hasKeyA rest k

/-- Property access `v.k`: fields of objects, `undefined` on everything
else that does not throw (primitives).  Access on `null`/`undefined`
throws in JS; the dispatch code only reaches that case through `jGetE`
below or behind a truthiness guard. -/
def jGet (v : JVal) (k : String) : JVal :=
  match v with
  | .vObj fs => aGet fs k
  | _ => .vUndefined

/-- The JS `k in v` test (only objects carry string keys here). -/
def hasKeyJ (v : JVal) (k : String) : Bool :=
  match v with
  | .vObj fs => hasKeyA fs k
  | _ => false

/-- JS truthiness. -/
def truthy : JVal → Bool
  | .vNum q => decide (q ≠ 0)
  | .vNaN => false
  | .vStr s => decide (s ≠ "")
  | .vBool b => b
  | .vNull => false
  | .vUndefined => false
  | .vObj _ => true
  | .vArr _ => true

/-- The JS `typeof v === 'number'` test (NaN is a number). -/
def isNumberT : JVal → Bool
  | .vNum _ => true
  | .vNaN => true
  | _ => false

/-- The JS `typeof v === 'object'` test (`null` and arrays included). -/
def isObjectT : JVal → Bool
  | .vObj _ => true
  | .vArr _ => true
  | .vNull => true
  | _ => false

/-- The JS `a || b` fallback idiom. -/
def jvOr (a b : JVal) : JVal := if truthy a then a else b

/-- Optional chaining `a?.k`: `undefined` when the receiver is nullish. -/
def jOptChain (a : JVal) (k : String) : JVal :=
  match a with
  | .vNull => .vUndefined
  | .vUndefined => .vUndefined
  | v => jGet v k

/-- Value of a digit list, `none` when a non-digit occurs. -/
def natOfDigits? (cs : List Char) : Option Nat :=
  cs.foldl (fun acc c =>
    acc.bind fun n => if c.isDigit then some (n * 10 + (c.toNat - 48)) else none)
    (some 0)

/-- Numeric coercion `Number(s)` for simple decimal string literals;
`none` models NaN.  Hex, exponent and Infinity forms are collapsed to NaN
(no dispatch path relevant to the claims coerces such a string). -/
def strToNumber (s : String) : Option ℚ :=
  let t := s.trim
  if t = "" then some 0
  else
    let (sgn, u) :=
      if t.startsWith "-" then ((-1 : ℚ), t.drop 1)
      else if t.startsWith "+" then ((1 : ℚ), t.drop 1)
      else ((1 : ℚ), t)
    match u.splitOn "." with
    | [i] =>
      if i = "" then none
      else (natOfDigits? i.toList).map fun n => sgn * n
    | [i, f] =>
      if i = "" && f = "" then none
      else
        (natOfDigits? i.toList).bind fun n =>
          (natOfDigits? f.toList).map fun m =>
            sgn * ((n : ℚ) + (m : ℚ) / ((10 : ℚ) ^ f.length))
    | _ => none

/-- JS `ToNumber` coercion; `none` models NaN. -/
def toNumber : JVal → Option ℚ
  | .vNum q => some q
  | .vNaN => none
  | .vBool b => some (if b then 1 else 0)
  | .vNull => some 0
  | .vUndefined => none
  | .vStr s => strToNumber s
  | .vObj _ => none
  | .vArr _ => none

/-- JS subtraction `a - b` (NaN-propagating). -/
def jsSub (a b : JVal) : JVal :=
  match toNumber a, toNumber b with
  | some x, some y => .vNum (x - y)
  | _, _ => .vNaN

/-- JS addition on numeric operands; the string-concatenation overload of
`+` is collapsed to NaN (unreachable for the claims below). -/
def jsAdd (a b : JVal) : JVal :=
  match toNumber a, toNumber b with
  | some x, some y => .vNum (x + y)
  | _, _ => .vNaN

/-- JS division; division by zero (infinities) collapsed to NaN — the
dispatch code only divides by the literal 2. -/
def jsDiv (a b : JVal) : JVal :=
  match toNumber a, toNumber b with
  | some x, some y => if y = 0 then .vNaN else .vNum (x / y)
  | _, _ => .vNaN

/-- JS `Math.abs`. -/
def jsAbs (a : JVal) : JVal :=
  match toNumber a with
  | some x => .vNum |x|
  | none => .vNaN

/-- JS `Math.floor`. -/
def jsFloor (a : JVal) : JVal :=
  match toNumber a with
  | some x => .vNum ((⌊x⌋ : ℤ) : ℚ)
  | none => .vNaN

/-- JS `a > b` (false on NaN). -/
def jsGtB (a b : JVal) : Bool :=
  match toNumber a, toNumber b with
  | some x, some y => decide (x > y)
  | _, _ => false

/-- JS `a < b` (false on NaN). -/
def jsLtB (a b : JVal) : Bool :=
  match toNumber a, toNumber b with
  | some x, some y => decide (x < y)
  | _, _ => false

end JVal

open JVal

/-- A thrown JS failure: either an `Error` object (carrying its message)
or an arbitrary thrown value. -/
inductive JErr where
  | jsError (msg : String)
  | jsThrow (v : JVal)
deriving Repr

/-- The expression `err instanceof Error ? err.message : err` used by
`wrapError` when an underlying failure is attached. -/
def errPayload : JErr → JVal
  | .jsError m => .vStr m
  | .jsThrow v => v

/-- Embedding of `wrapResult` (execute-tool-method.ts lines 36-39):
results that already carry a `success` key pass through unchanged; other
values are wrapped in a fresh success envelope. -/
def wrapResult (res : JVal) : JVal :=
  if truthy res && isObjectT res && hasKeyJ res "success" then res
  else .vObj [("success", .vBool true), ("message", .vStr "OK"), ("data", res)]

/-- Embedding of `wrapError` (execute-tool-method.ts lines 41-47). -/
def wrapError (message : String) (err : Option JErr) : JVal :=
  .vObj [("success", .vBool false),
         ("message", .vStr message),
         ("error", match err with
                   | some e => errPayload e
                   | none => .vUndefined)]

/-- Embedding of `validateRequiredProps` (execute-tool-method.ts lines
49-55): collects every required key missing from the argument bag. -/
def validateRequiredProps (required : List String) (args : JAssoc) : Option String :=
  let missing := required.filter fun p => !(hasKeyA args p)
  if missing.isEmpty then none
  else some ("Missing required properties: " ++ String.intercalate ", " missing)

/-- A property entry of a registered JSON schema: all placeholder-tool
properties are of type string, some with an enumerated value list. -/
structure PropSchema where
  isString : Bool
  enumVals : Option (List String)
deriving Repr

/-- The input schema of a registered tool: required key names plus typed
properties. -/
structure InputSchema where
  required : List String
  props : List (String × PropSchema)
deriving Repr

/-- A registered tool descriptor (name plus optional input schema). -/
structure ToolDef where
  name : String
  inputSchema : Option InputSchema
deriving Repr

/-- The `start_session` placeholder schema from `src/tools/index.ts`
(lines 13-38): four required string fields, two of them enumerated. -/
def startSessionSchema : InputSchema :=
  { required := ["platformName", "platformVersion", "deviceName", "automationName"],
    props := [("platformName", ⟨true, some ["Android", "iOS"]⟩),
              ("platformVersion", ⟨true, none⟩),
              ("deviceName", ⟨true, none⟩),
              ("automationName", ⟨true, some ["UiAutomator2", "XCUITest"]⟩)] }

/-- The tool registry actually exported by `src/tools/index.ts`
(`export const tools = placeholderTools`): the three Phase-1 placeholder
descriptors. -/
def toolsRegistry : List ToolDef :=
  [⟨"start_session", some startSessionSchema⟩,
   ⟨"end_session", some ⟨[], []⟩⟩,
   ⟨"get_device_info", some ⟨[], []⟩⟩]

/-- An ajv validation error, reduced to the three kinds the registered
schemas can produce. -/
inductive AjvErr where
  | requiredMissing (p : String)
  | typeErr (p : String)
  | enumErr (p : String)
deriving Repr

/-- Check of one schema property against the argument bag (type check,
then enum membership), as compiled by ajv. -/
def propFirstError (args : JAssoc) (k : String) (ps : PropSchema) : Option AjvErr :=
  if hasKeyA args k then
    match aGet args k with
    | .vStr s =>
      match ps.enumVals with
      | some es => if es.contains s then none else some (.enumErr k)
      | none => none
    | _ => if ps.isString then some (.typeErr k) else none
  else none

/-- First validation error reported by ajv compiled with default options:
`new Ajv()` leaves `allErrors` false, so validation stops at the first
violation — first the required keys in declaration order, then the typed
properties in declaration order. -/
def ajvFirstError (sch : InputSchema) (args : JAssoc) : Option AjvErr :=
  match sch.required.find? (fun p => !(hasKeyA args p)) with
  | some p => some (.requiredMissing p)
  | none => sch.props.findSome? fun kp => propFirstError args kp.1 kp.2

/-- Modelled rendering of `JSON.stringify(validate.errors)` for the
non-required error kinds (the exact text is never inspected by the
dispatch layer; it is only required to be a non-empty string). -/
def ajvStringify : AjvErr → String
  | .requiredMissing p =>
    "[\x7b\"keyword\":\"required\",\"missingProperty\":\"" ++ p ++ "\"\x7d]"
  | .typeErr p =>
    "[\x7b\"instancePath\":\"/" ++ p ++ "\",\"keyword\":\"type\",\"message\":\"must be string\"\x7d]"
  | .enumErr p =>
    "[\x7b\"instancePath\":\"/" ++ p ++ "\",\"keyword\":\"enum\",\"message\":\"must be equal to one of the allowed values\"\x7d]"

/-- Embedding of `validateToolInput` (execute-tool-method.ts lines
14-34): tools without a registered schema skip validation; a first error
of kind `required` is rendered as a readable message, any other first
error as the stringified ajv error list. -/
def validateToolInput (toolName : String) (args : JAssoc) : Option String :=
  match toolsRegistry.find? (fun td => td.name == toolName) with
  | none => none
  | some td =>
    match td.inputSchema with
    | none => none
    | some sch =>
      match ajvFirstError sch args with
      | none => none
      | some (.requiredMissing p) => some ("Missing required properties: " ++ p)
      | some e => some (ajvStringify e)

/-- The raw driver handle exposed by `getDriver()` (absent when no
session is active). -/
structure RawDriver where
  takeScreenshot : Except JErr JVal
  getPageSource : Except JErr JVal

/-- The capability provider as seen by the dispatch layer: the
`AppiumClient` facade together with its managers, flattened to one record
of methods.  Each method either returns a raw result or throws. -/
structure AppiumClient where
  startSession : JVal → Except JErr JVal
  endSession : Except JErr JVal
  getDeviceInfo : Except JErr JVal
  rotateDevice : JVal → Except JErr JVal
  getScreenSize : Except JErr JVal
  findElement : JVal → JVal → Except JErr JVal
  tapElement : JVal → JVal → Except JErr JVal
  sendKeys : JVal → JVal → JVal → Except JErr JVal
  swipe : JVal → JVal → Except JErr JVal
  pinchZoom : JVal → JVal → JVal → Except JErr JVal
  longPress : JVal → JVal → JVal → Except JErr JVal
  doubleTap : JVal → JVal → Except JErr JVal
  multiTouch : JVal → Except JErr JVal
  scroll : JVal → JVal → Except JErr JVal
  getAvailableContexts : Except JErr JVal
  getCurrentContext : Except JErr JVal
  switchToContext : JVal → Except JErr JVal
  getContextDetails : Except JErr JVal
  switchToWebView : JVal → Except JErr JVal
  switchToNative : Except JErr JVal
  isWebViewAvailable : Except JErr JVal
  getWebViewCount : Except JErr JVal
  launchApp : JVal → Except JErr JVal
  terminateApp : JVal → Except JErr JVal
  getAppState : JVal → Except JErr JVal
  isAppInstalled : JVal → Except JErr JVal
  installApp : JVal → Except JErr JVal
  removeApp : JVal → Except JErr JVal
  getAppStrings : JVal → JVal → Except JErr JVal
  startActivity : JVal → JVal → JVal → JVal → Except JErr JVal
  getCurrentActivity : Except JErr JVal
  getCurrentPackage : Except JErr JVal
  backgroundApp : JVal → Except JErr JVal
  resetApp : Except JErr JVal
  driver : Option RawDriver

/-- Property access that throws on nullish receivers, as unguarded JS
member access does (`found.success` with `found` null). -/
def jGetE (v : JVal) (k : String) : Except JErr JVal :=
  match v with
  | .vNull => .error (.jsError ("Cannot read properties of null (reading " ++ k ++ ")"))
  | .vUndefined => .error (.jsError ("Cannot read properties of undefined (reading " ++ k ++ ")"))
  | _ => .ok (jGet v k)

/-- The coordinate-to-direction derivation shared by the swipe and scroll
cases (execute-tool-method.ts lines 143-144, 190-191, 199-200, 250-251):
strict horizontal test, vertical otherwise, sign picks the direction. -/
def deriveDir (dx dy : ℚ) : String :=
  if |dx| > |dy| then (if dx < 0 then "left" else "right")
  else (if dy < 0 then "up" else "down")

/-- The same derivation at the JS value level (NaN comparisons are
false, so NaN deltas derive "down"). -/
def deriveDirJ (dx dy : JVal) : String :=
  if jsGtB (jsAbs dx) (jsAbs dy) then (if jsLtB dx (.vNum 0) then "left" else "right")
  else (if jsLtB dy (.vNum 0) then "up" else "down")

/-- The body of the `try` block of `executeToolMethod` (lines 62-394):
schema validation, then the routing switch.  A `.error` value models a
thrown exception escaping to the surrounding `catch`. -/
def execBody (c : AppiumClient) (t : String) (args : JAssoc) : Except JErr JVal :=
  match validateToolInput t args with
  | some verr => .ok (wrapError ("Invalid input: " ++ verr) none)
  | none =>
    if t = "start_session" then
      match validateRequiredProps ["capabilities"] args with
      | some err => .ok (wrapError err none)
      | none => (c.startSession (jvOr (aGet args "capabilities") (.vObj args))).map wrapResult
    else if t = "end_session" then
      c.endSession.map wrapResult
    else if t = "get_device_info" then
      c.getDeviceInfo.map wrapResult
    else if t = "rotate_device" then
      match validateRequiredProps ["orientation"] args with
      | some err => .ok (wrapError err none)
      | none => (c.rotateDevice (aGet args "orientation")).map wrapResult
    else if t = "get_screen_size" then
      c.getScreenSize.map wrapResult
    else if t = "find_mobile_element" then
      match validateRequiredProps ["strategy", "locator"] args with
      | some err => .ok (wrapError err none)
      | none => (c.findElement (aGet args "strategy") (aGet args "locator")).map wrapResult
    else if t = "tap_element" then
      match validateRequiredProps ["strategy", "locator"] args with
      | some err => .ok (wrapError err none)
      | none => (c.tapElement (aGet args "strategy") (aGet args "locator")).map wrapResult
    else if t = "send_mobile_keys" then
      match validateRequiredProps ["strategy", "locator", "text"] args with
      | some err => .ok (wrapError err none)
      | none =>
        (c.sendKeys (aGet args "strategy") (aGet args "locator") (aGet args "text")).map wrapResult
    else if t = "get_element_text" then
      match validateRequiredProps ["strategy", "locator"] args with
      | some err => .ok (wrapError err none)
      | none =>
        (c.findElement (aGet args "strategy") (aGet args "locator")).bind fun found =>
          (jGetE found "success").map fun s =>
            wrapResult (if truthy s then jOptChain (jGet found "data") "text" else found)
    else if t = "get_element_bounds" then
      match validateRequiredProps ["strategy", "locator"] args with
      | some err => .ok (wrapError err none)
      | none =>
        (c.findElement (aGet args "strategy") (aGet args "locator")).bind fun found =>
          (jGetE found "success").map fun s =>
            wrapResult (if truthy s then jOptChain (jGet found "data") "bounds" else found)
    else if t = "swipe_screen" then
      if truthy (aGet args "direction") then
        (c.swipe (aGet args "direction") (aGet args "distance")).map wrapResult
      else if isNumberT (aGet args "startX") && isNumberT (aGet args "endX") &&
              isNumberT (aGet args "startY") && isNumberT (aGet args "endY") then
        (c.swipe (.vStr (deriveDirJ (jsSub (aGet args "endX") (aGet args "startX"))
                                    (jsSub (aGet args "endY") (aGet args "startY"))))
          (jvOr (aGet args "distance") (.vNum (1/2)))).map wrapResult
      else
        .ok (wrapError "swipe_screen requires direction or start/end coordinates" none)
    else if t = "swipe_element" then
      .ok (wrapError "swipe_element is not supported; use swipe_screen with coordinates" none)
    else if t = "pinch_zoom" then
      match validateRequiredProps ["centerX", "centerY"] args with
      | some err => .ok (wrapError err none)
      | none =>
        (c.pinchZoom (aGet args "centerX") (aGet args "centerY") (aGet args "scale")).map wrapResult
    else if t = "long_press" then
      match validateRequiredProps ["x", "y"] args with
      | some err => .ok (wrapError err none)
      | none => (c.longPress (aGet args "x") (aGet args "y") (aGet args "durationMs")).map wrapResult
    else if t = "double_tap" then
      match validateRequiredProps ["x", "y"] args with
      | some err => .ok (wrapError err none)
      | none => (c.doubleTap (aGet args "x") (aGet args "y")).map wrapResult
    else if t = "multi_touch" then
      match validateRequiredProps ["touches"] args with
      | some err => .ok (wrapError err none)
      | none => (c.multiTouch (aGet args "touches")).map wrapResult
    else if t = "scroll" then
      match validateRequiredProps ["deltaX", "deltaY"] args with
      | some err =>
        if isNumberT (aGet args "deltaX") || isNumberT (aGet args "deltaY") then
          (c.scroll (.vStr (deriveDirJ (jvOr (aGet args "deltaX") (.vNum 0))
                                       (jvOr (aGet args "deltaY") (.vNum 0))))
            (jvOr (aGet args "distance") (.vNum (1/2)))).map wrapResult
        else
          .ok (wrapError err none)
      | none =>
        (c.scroll (.vStr (deriveDirJ (jvOr (aGet args "deltaX") (.vNum 0))
                                     (jvOr (aGet args "deltaY") (.vNum 0))))
          (jvOr (aGet args "distance") (.vNum (1/2)))).map wrapResult
    else if t = "rotate_gesture" then
      .ok (wrapError "rotate_gesture is not implemented" none)
    else if t = "take_mobile_screenshot" then
      match c.driver with
      | none => .ok (wrapError "No active session" none)
      | some d =>
        match d.takeScreenshot with
        | .ok img => .ok (wrapResult (.vObj [("screenshot", img)]))
        | .error e => .ok (wrapError "Failed to take screenshot" (some e))
    else if t = "get_page_source" then
      match c.driver with
      | none => .ok (wrapError "No active session" none)
      | some d =>
        match d.getPageSource with
        | .ok src => .ok (wrapResult (.vObj [("pageSource", src)]))
        | .error e => .ok (wrapError "Failed to get page source" (some e))
    else if t = "wait_mobile_element" then
      match validateRequiredProps ["strategy", "locator"] args with
      | some err => .ok (wrapError err none)
      | none => (c.findElement (aGet args "strategy") (aGet args "locator")).map wrapResult
    else if t = "scroll_mobile" then
      if truthy (aGet args "direction") then
        (c.scroll (aGet args "direction") (jvOr (aGet args "distance") (.vNum (1/2)))).map wrapResult
      else if isNumberT (jvOr (aGet args "deltaX") (.vNum 0)) ||
              isNumberT (jvOr (aGet args "deltaY") (.vNum 0)) then
        (c.scroll (.vStr (deriveDirJ (jvOr (aGet args "deltaX") (.vNum 0))
                                     (jvOr (aGet args "deltaY") (.vNum 0))))
          (jvOr (aGet args "distance") (.vNum (1/2)))).map wrapResult
      else
        .ok (wrapError "scroll_mobile requires direction or delta values" none)
    else if t = "long_press_element" then
      match validateRequiredProps ["strategy", "locator"] args with
      | some err => .ok (wrapError err none)
      | none =>
        (c.findElement (aGet args "strategy") (aGet args "locator")).bind fun found =>
          if !(truthy found) || !(truthy (jGet found "success")) then
            .ok (wrapError "Element not found for long_press_element" none)
          else if !(truthy (jOptChain (jGet found "data") "bounds")) then
            .ok (wrapError "Element bounds not available for long_press_element" none)
          else
            (c.longPress
              (jsFloor (jsAdd (jGet (jOptChain (jGet found "data") "bounds") "x")
                (jsDiv (jGet (jOptChain (jGet found "data") "bounds") "width") (.vNum 2))))
              (jsFloor (jsAdd (jGet (jOptChain (jGet found "data") "bounds") "y")
                (jsDiv (jGet (jOptChain (jGet found "data") "bounds") "height") (.vNum 2))))
              (aGet args "durationMs")).map wrapResult
    else if t = "get_contexts" then
      c.getAvailableContexts.map wrapResult
    else if t = "get_current_context" then
      c.getCurrentContext.map wrapResult
    else if t = "switch_context" then
      match validateRequiredProps ["contextName"] args with
      | some err => .ok (wrapError err none)
      | none => (c.switchToContext (aGet args "contextName")).map wrapResult
    else if t = "get_context_details" then
      c.getContextDetails.map wrapResult
    else if t = "switch_to_webview" then
      match validateRequiredProps ["index"] args with
      | some err => .ok (wrapError err none)
      | none => (c.switchToWebView (aGet args "index")).map wrapResult
    else if t = "switch_to_native" then
      c.switchToNative.map wrapResult
    else if t = "is_webview_available" then
      c.isWebViewAvailable.map wrapResult
    else if t = "get_webview_count" then
      c.getWebViewCount.map wrapResult
    else if t = "launch_app" then
      (c.launchApp (aGet args "appId")).map wrapResult
    else if t = "terminate_app" then
      (c.terminateApp (aGet args "appId")).map wrapResult
    else if t = "get_app_state" then
      match validateRequiredProps ["appId"] args with
      | some err => .ok (wrapError err none)
      | none => (c.getAppState (aGet args "appId")).map wrapResult
    else if t = "is_app_installed" then
      match validateRequiredProps ["bundleId"] args with
      | some err => .ok (wrapError err none)
      | none => (c.isAppInstalled (aGet args "bundleId")).map wrapResult
    else if t = "install_app" then
      match validateRequiredProps ["appPath"] args with
      | some err => .ok (wrapError err none)
      | none => (c.installApp (aGet args "appPath")).map wrapResult
    else if t = "remove_app" then
      match validateRequiredProps ["bundleId"] args with
      | some err => .ok (wrapError err none)
      | none => (c.removeApp (aGet args "bundleId")).map wrapResult
    else if t = "get_app_strings" then
      (c.getAppStrings (aGet args "language") (aGet args "stringFile")).map wrapResult
    else if t = "start_activity" then
      match validateRequiredProps ["appPackage", "appActivity"] args with
      | some err => .ok (wrapError err none)
      | none =>
        (c.startActivity (aGet args "appPackage") (aGet args "appActivity")
          (aGet args "appWaitPackage") (aGet args "appWaitActivity")).map wrapResult
    else if t = "get_current_activity" then
      c.getCurrentActivity.map wrapResult
    else if t = "get_current_package" then
      c.getCurrentPackage.map wrapResult
    else if t = "background_app" then
      (c.backgroundApp (aGet args "seconds")).map wrapResult
    else if t = "reset_app" then
      c.resetApp.map wrapResult
    else
      .ok (wrapError ("Unknown tool: " ++ t) none)

/-- Embedding of `executeToolMethod` (lines 57-398): the `try` body with
its surrounding `catch`, which converts any thrown failure into the fixed
failure envelope. -/
def executeToolMethod (c : AppiumClient) (t : String) (args : JAssoc) : JVal :=
  match execBody c t args with
  | .ok v => v
  | .error e => wrapError "Tool execution failed" (some e)

/-- The tool names handled by cases of the routing switch, in source
order. -/
def handledToolNames : List String :=
  ["start_session", "end_session", "get_device_info", "rotate_device", "get_screen_size",
   "find_mobile_element", "tap_element", "send_mobile_keys", "get_element_text",
   "get_element_bounds", "swipe_screen", "swipe_element", "pinch_zoom", "long_press",
   "double_tap", "multi_touch", "scroll", "rotate_gesture", "take_mobile_screenshot",
   "get_page_source", "wait_mobile_element", "scroll_mobile", "long_press_element",
   "get_contexts", "get_current_context", "switch_context", "get_context_details",
   "switch_to_webview", "switch_to_native", "is_webview_available", "get_webview_count",
   "launch_app", "terminate_app", "get_app_state", "is_app_installed", "install_app",
   "remove_app", "get_app_strings", "start_activity", "get_current_activity",
   "get_current_package", "background_app", "reset_app"]

/-- Boolean check that a value is a non-empty string. -/
def msgNonempty (v : JVal) : Bool :=
  match v with
  | .vStr s => !(s == "")
  | _ => false

/-- The response-envelope invariant of the spec: `success=false` forces a
non-empty string message and no `data` field; `success=true` forces no
`error` field. -/
def envInvb (v : JVal) : Bool :=
  (match jGet v "success" with
   | .vBool false => msgNonempty (jGet v "message") && !(hasKeyJ v "data")
   | _ => true) &&
  (match jGet v "success" with
   | .vBool true => !(hasKeyJ v "error")
   | _ => true)

/-- A value is safe to pass through the result normalizer: if it carries a
`success` key at all, it already satisfies the envelope invariant. -/
def passOKb (v : JVal) : Bool := !(hasKeyJ v "success") || envInvb v

mutual
/-- A value all of whose components (itself included) are safe to pass
through the result normalizer. -/
def deepOKb : JVal → Bool
  | .vObj fs => passOKb (.vObj fs) && deepOKFields fs
  | .vArr es => deepOKElems es
  | _ => true

/-- Field-list part of `deepOKb`. -/
def deepOKFields : List (String × JVal) → Bool
  | [] => true
  | (_, v) :: r => deepOKb v && deepOKFields r

/-- Element-list part of `deepOKb`. -/
def deepOKElems : List JVal → Bool
  | [] => true
  | v :: r => deepOKb v && deepOKElems r
end

lemma deepOK_passOK {v : JVal} (h : deepOKb v = true) : passOKb v = true := by
  cases v <;> simp_all [deepOKb, passOKb, hasKeyJ]

lemma deepOK_aGet {fs : List (String × JVal)} (h : deepOKFields fs = true) (k : String) :
    deepOKb (aGet fs k) = true := by
  induction fs with
  | nil => simp [aGet, deepOKb]
  | cons p r ih =>
    obtain ⟨k', v⟩ := p
    simp only [deepOKFields, Bool.and_eq_true] at h
    by_cases hk : k' = k
    · simpa [aGet, hk] using h.1
    · simpa [aGet, hk] using ih h.2

lemma deepOK_jGet {v : JVal} (h : deepOKb v = true) (k : String) :
    deepOKb (jGet v k) = true := by
  cases v <;> simp_all [jGet, deepOKb]
  · exact deepOK_aGet (by simp_all [deepOKb]) k

lemma deepOK_jOptChain {v : JVal} (h : deepOKb v = true) (k : String) :
    deepOKb (jOptChain v k) = true := by
  cases v <;> simp_all [jOptChain, deepOKb, jGet]
  · exact deepOK_aGet (by simp_all [deepOKb]) k

lemma envInvb_wrapError {m : String} (h : (m == "") = false) (e : Option JErr) :
    envInvb (wrapError m e) = true := by
  simp [envInvb, wrapError, jGet, aGet, hasKeyJ, hasKeyA, msgNonempty, h]

lemma envInvb_wrapResult {v : JVal} (h : passOKb v = true) :
    envInvb (wrapResult v) = true := by
  unfold wrapResult
  by_cases hc : (truthy v && isObjectT v && hasKeyJ v "success") = true
  · rw [if_pos hc]
    simp only [Bool.and_eq_true] at hc
    simp only [passOKb, Bool.or_eq_true, Bool.not_eq_true'] at h
    rcases h with h | h
    · rw [hc.2] at h; cases h
    · exact h
  · rw [if_neg hc]
    simp [envInvb, jGet, aGet, hasKeyJ, hasKeyA, msgNonempty]

lemma envInv_mapWrap {x : Except JErr JVal} {v : JVal}
    (hx : ∀ r, x = .ok r → deepOKb r = true)
    (h : x.map wrapResult = .ok v) : envInvb v = true := by
  cases x with
  | error e => simp [Except.map] at h
  | ok r =>
    simp only [Except.map, Except.ok.injEq] at h
    subst h
    exact envInvb_wrapResult (deepOK_passOK (hx r rfl))

lemma append_beq_empty_false (a b : String) (ha : a ≠ "") : ((a ++ b) == "") = false := by
  rw [beq_eq_false_iff_ne]
  intro he
  apply ha
  have hd := congrArg String.data he
  rw [String.data_append] at hd
  exact String.ext (List.append_eq_nil.mp hd).1

lemma vrp_some_ne_empty {req : List String} {args : JAssoc} {m : String}
    (h : validateRequiredProps req args = some m) : (m == "") = false := by
  simp only [validateRequiredProps] at h
  split at h
  · exact absurd h (by simp)
  · simp only [Option.some.injEq] at h
    subst h
    exact append_beq_empty_false _ _ (by decide)

/-- Hypothesis on the capability provider: every result any of its
methods returns is envelope-safe throughout (`deepOKb`).  Thrown failures
are unrestricted. -/
structure ProviderOK (c : AppiumClient) : Prop where
  startSession : ∀ a r, c.startSession a = .ok r → deepOKb r = true
  endSession : ∀ r, c.endSession = .ok r → deepOKb r = true
  getDeviceInfo : ∀ r, c.getDeviceInfo = .ok r → deepOKb r = true
  rotateDevice : ∀ a r, c.rotateDevice a = .ok r → deepOKb r = true
  getScreenSize : ∀ r, c.getScreenSize = .ok r → deepOKb r = true
  findElement : ∀ a b r, c.findElement a b = .ok r → deepOKb r = true
  tapElement : ∀ a b r, c.tapElement a b = .ok r → deepOKb r = true
  sendKeys : ∀ a b d r, c.sendKeys a b d = .ok r → deepOKb r = true
  swipe : ∀ a b r, c.swipe a b = .ok r → deepOKb r = true
  pinchZoom : ∀ a b d r, c.pinchZoom a b d = .ok r → deepOKb r = true
  longPress : ∀ a b d r, c.longPress a b d = .ok r → deepOKb r = true
  doubleTap : ∀ a b r, c.doubleTap a b = .ok r → deepOKb r = true
  multiTouch : ∀ a r, c.multiTouch a = .ok r → deepOKb r = true
  scroll : ∀ a b r, c.scroll a b = .ok r → deepOKb r = true
  getAvailableContexts : ∀ r, c.getAvailableContexts = .ok r → deepOKb r = true
  getCurrentContext : ∀ r, c.getCurrentContext = .ok r → deepOKb r = true
  switchToContext : ∀ a r, c.switchToContext a = .ok r → deepOKb r = true
  getContextDetails : ∀ r, c.getContextDetails = .ok r → deepOKb r = true
  switchToWebView : ∀ a r, c.switchToWebView a = .ok r → deepOKb r = true
  switchToNative : ∀ r, c.switchToNative = .ok r → deepOKb r = true
  isWebViewAvailable : ∀ r, c.isWebViewAvailable = .ok r → deepOKb r = true
  getWebViewCount : ∀ r, c.getWebViewCount = .ok r → deepOKb r = true
  launchApp : ∀ a r, c.launchApp a = .ok r → deepOKb r = true
  terminateApp : ∀ a r, c.terminateApp a = .ok r → deepOKb r = true
  getAppState : ∀ a r, c.getAppState a = .ok r → deepOKb r = true
  isAppInstalled : ∀ a r, c.isAppInstalled a = .ok r → deepOKb r = true
  installApp : ∀ a r, c.installApp a = .ok r → deepOKb r = true
  removeApp : ∀ a r, c.removeApp a = .ok r → deepOKb r = true
  getAppStrings : ∀ a b r, c.getAppStrings a b = .ok r → deepOKb r = true
  startActivity : ∀ a b d e r, c.startActivity a b d e = .ok r → deepOKb r = true
  getCurrentActivity : ∀ r, c.getCurrentActivity = .ok r → deepOKb r = true
  getCurrentPackage : ∀ r, c.getCurrentPackage = .ok r → deepOKb r = true
  backgroundApp : ∀ a r, c.backgroundApp a = .ok r → deepOKb r = true
  resetApp : ∀ r, c.resetApp = .ok r → deepOKb r = true

lemma envShape_guard {req : List String} {args : JAssoc} {x : Except JErr JVal} {v : JVal}
    (hx : ∀ r, x = .ok r → deepOKb r = true)
    (h : (match validateRequiredProps req args with
          | some err => Except.ok (wrapError err none)
          | none => x.map wrapResult) = .ok v) :
    envInvb v = true := by
  cases hv : validateRequiredProps req args with
  | some err =>
    rw [hv] at h
    simp only [Except.ok.injEq] at h
    subst h
    exact envInvb_wrapError (vrp_some_ne_empty hv) none
  | none =>
    rw [hv] at h
    exact envInv_mapWrap hx h

lemma envShape_elemGet {req : List String} {args : JAssoc} {x : Except JErr JVal}
    {k : String} {v : JVal}
    (hx : ∀ r, x = .ok r → deepOKb r = true)
    (h : (match validateRequiredProps req args with
          | some err => Except.ok (wrapError err none)
          | none => x.bind fun found =>
              (jGetE found "success").map fun s =>
                wrapResult (if truthy s then jOptChain (jGet found "data") k else found)) = .ok v) :
    envInvb v = true := by
  cases hv : validateRequiredProps req args with
  | some err =>
    rw [hv] at h
    simp only [Except.ok.injEq] at h
    subst h
    exact envInvb_wrapError (vrp_some_ne_empty hv) none
  | none =>
    rw [hv] at h
    cases hf : x with
    | error e => rw [hf] at h; simp [Except.bind] at h
    | ok found =>
      rw [hf] at h
      simp only [Except.bind] at h
      cases hs : jGetE found "success" with
      | error e => rw [hs] at h; simp [Except.map] at h
      | ok s =>
        rw [hs] at h
        simp only [Except.map, Except.ok.injEq] at h
        subst h
        apply envInvb_wrapResult
        have hfound : deepOKb found = true := hx found hf
        by_cases ht : truthy s = true
        · rw [if_pos ht]
          exact deepOK_passOK (deepOK_jOptChain (deepOK_jGet hfound "data") k)
        · rw [if_neg ht]
          exact deepOK_passOK hfound

lemma envShape_driver {od : Option RawDriver} {act : RawDriver → Except JErr JVal}
    {key failMsg : String} {v : JVal} (hm : failMsg ≠ "") (hk : key ≠ "success")
    (h : ((match od with
           | none => Except.ok (wrapError "No active session" none)
           | some d =>
             match act d with
             | .ok img => Except.ok (wrapResult (.vObj [(key, img)]))
             | .error e => Except.ok (wrapError failMsg (some e))) : Except JErr JVal) = .ok v) :
    envInvb v = true := by
  split at h
  · simp only [Except.ok.injEq] at h
    subst h
    exact envInvb_wrapError (by decide) none
  · split at h
    · simp only [Except.ok.injEq] at h
      subst h
      apply envInvb_wrapResult
      simp [passOKb, hasKeyJ, hasKeyA, hk]
    · rename_i e heq
      simp only [Except.ok.injEq] at h
      subst h
      exact envInvb_wrapError (beq_eq_false_iff_ne.mpr hm) (some e)

lemma envInv_execBody_ok {c : AppiumClient} {t : String} {args : JAssoc} {v : JVal}
    (hc : ProviderOK c) (h : execBody c t args = .ok v) : envInvb v = true := by
  unfold execBody at h
  split at h
  next verr heq =>
    simp only [Except.ok.injEq] at h
    subst h
    exact envInvb_wrapError (append_beq_empty_false _ _ (by decide)) none
  next heq =>
    by_cases h01 : t = "start_session"
    · rw [if_pos h01] at h
      exact envShape_guard (fun r hr => hc.startSession _ r hr) h
    rw [if_neg h01] at h
    by_cases h02 : t = "end_session"
    · rw [if_pos h02] at h
      exact envInv_mapWrap hc.endSession h
    rw [if_neg h02] at h
    by_cases h03 : t = "get_device_info"
    · rw [if_pos h03] at h
      exact envInv_mapWrap hc.getDeviceInfo h
    rw [if_neg h03] at h
    by_cases h04 : t = "rotate_device"
    · rw [if_pos h04] at h
      exact envShape_guard (fun r hr => hc.rotateDevice _ r hr) h
    rw [if_neg h04] at h
    by_cases h05 : t = "get_screen_size"
    · rw [if_pos h05] at h
      exact envInv_mapWrap hc.getScreenSize h
    rw [if_neg h05] at h
    by_cases h06 : t = "find_mobile_element"
    · rw [if_pos h06] at h
      exact envShape_guard (fun r hr => hc.findElement _ _ r hr) h
    rw [if_neg h06] at h
    by_cases h07 : t = "tap_element"
    · rw [if_pos h07] at h
      exact envShape_guard (fun r hr => hc.tapElement _ _ r hr) h
    rw [if_neg h07] at h
    by_cases h08 : t = "send_mobile_keys"
    · rw [if_pos h08] at h
      exact envShape_guard (fun r hr => hc.sendKeys _ _ _ r hr) h
    rw [if_neg h08] at h
    by_cases h09 : t = "get_element_text"
    · rw [if_pos h09] at h
      exact envShape_elemGet (fun r hr => hc.findElement _ _ r hr) h
    rw [if_neg h09] at h
    by_cases h10 : t = "get_element_bounds"
    · rw [if_pos h10] at h
      exact envShape_elemGet (fun r hr => hc.findElement _ _ r hr) h
    rw [if_neg h10] at h
    by_cases h11 : t = "swipe_screen"
    · rw [if_pos h11] at h
      split at h
      · exact envInv_mapWrap (fun r hr => hc.swipe _ _ r hr) h
      · split at h
        · exact envInv_mapWrap (fun r hr => hc.swipe _ _ r hr) h
        · simp only [Except.ok.injEq] at h
          subst h
          exact envInvb_wrapError (by decide) none
    rw [if_neg h11] at h
    by_cases h12 : t = "swipe_element"
    · rw [if_pos h12] at h
      simp only [Except.ok.injEq] at h
      subst h
      exact envInvb_wrapError (by decide) none
    rw [if_neg h12] at h
    by_cases h13 : t = "pinch_zoom"
    · rw [if_pos h13] at h
      exact envShape_guard (fun r hr => hc.pinchZoom _ _ _ r hr) h
    rw [if_neg h13] at h
    by_cases h14 : t = "long_press"
    · rw [if_pos h14] at h
      exact envShape_guard (fun r hr => hc.longPress _ _ _ r hr) h
    rw [if_neg h14] at h
    by_cases h15 : t = "double_tap"
    · rw [if_pos h15] at h
      exact envShape_guard (fun r hr => hc.doubleTap _ _ r hr) h
    rw [if_neg h15] at h
    by_cases h16 : t = "multi_touch"
    · rw [if_pos h16] at h
      exact envShape_guard (fun r hr => hc.multiTouch _ r hr) h
    rw [if_neg h16] at h
    by_cases h17 : t = "scroll"
    · rw [if_pos h17] at h
      split at h
      next err heq2 =>
        split at h
        · exact envInv_mapWrap (fun r hr => hc.scroll _ _ r hr) h
        · simp only [Except.ok.injEq] at h
          subst h
          exact envInvb_wrapError (vrp_some_ne_empty heq2) none
      next heq2 =>
        exact envInv_mapWrap (fun r hr => hc.scroll _ _ r hr) h
    rw [if_neg h17] at h
    by_cases h18 : t = "rotate_gesture"
    · rw [if_pos h18] at h
      simp only [Except.ok.injEq] at h
      subst h
      exact envInvb_wrapError (by decide) none
    rw [if_neg h18] at h
    by_cases h19 : t = "take_mobile_screenshot"
    · rw [if_pos h19] at h
      exact envShape_driver (by decide) (by decide) h
    rw [if_neg h19] at h
    by_cases h20 : t = "get_page_source"
    · rw [if_pos h20] at h
      exact envShape_driver (by decide) (by decide) h
    rw [if_neg h20] at h
    by_cases h21 : t = "wait_mobile_element"
    · rw [if_pos h21] at h
      exact envShape_guard (fun r hr => hc.findElement _ _ r hr) h
    rw [if_neg h21] at h
    by_cases h22 : t = "scroll_mobile"
    · rw [if_pos h22] at h
      split at h
      · exact envInv_mapWrap (fun r hr => hc.scroll _ _ r hr) h
      · split at h
        · exact envInv_mapWrap (fun r hr => hc.scroll _ _ r hr) h
        · simp only [Except.ok.injEq] at h
          subst h
          exact envInvb_wrapError (by decide) none
    rw [if_neg h22] at h
    by_cases h23 : t = "long_press_element"
    · rw [if_pos h23] at h
      split at h
      next err heq2 =>
        simp only [Except.ok.injEq] at h
        subst h
        exact envInvb_wrapError (vrp_some_ne_empty heq2) none
      next heq2 =>
        cases hf : c.findElement (aGet args "strategy") (aGet args "locator") with
        | error e =>
          rw [hf] at h
          simp [Except.bind] at h
        | ok found =>
          rw [hf] at h
          simp only [Except.bind] at h
          split at h
          · simp only [Except.ok.injEq] at h
            subst h
            exact envInvb_wrapError (by decide) none
          · split at h
            · simp only [Except.ok.injEq] at h
              subst h
              exact envInvb_wrapError (by decide) none
            · exact envInv_mapWrap (fun r hr => hc.longPress _ _ _ r hr) h
    rw [if_neg h23] at h
    by_cases h24 : t = "get_contexts"
    · rw [if_pos h24] at h
      exact envInv_mapWrap hc.getAvailableContexts h
    rw [if_neg h24] at h
    by_cases h25 : t = "get_current_context"
    · rw [if_pos h25] at h
      exact envInv_mapWrap hc.getCurrentContext h
    rw [if_neg h25] at h
    by_cases h26 : t = "switch_context"
    · rw [if_pos h26] at h
      exact envShape_guard (fun r hr => hc.switchToContext _ r hr) h
    rw [if_neg h26] at h
    by_cases h27 : t = "get_context_details"
    · rw [if_pos h27] at h
      exact envInv_mapWrap hc.getContextDetails h
    rw [if_neg h27] at h
    by_cases h28 : t = "switch_to_webview"
    · rw [if_pos h28] at h
      exact envShape_guard (fun r hr => hc.switchToWebView _ r hr) h
    rw [if_neg h28] at h
    by_cases h29 : t = "switch_to_native"
    · rw [if_pos h29] at h
      exact envInv_mapWrap hc.switchToNative h
    rw [if_neg h29] at h
    by_cases h30 : t = "is_webview_available"
    · rw [if_pos h30] at h
      exact envInv_mapWrap hc.isWebViewAvailable h
    rw [if_neg h30] at h
    by_cases h31 : t = "get_webview_count"
    · rw [if_pos h31] at h
      exact envInv_mapWrap hc.getWebViewCount h
    rw [if_neg h31] at h
    by_cases h32 : t = "launch_app"
    · rw [if_pos h32] at h
      exact envInv_mapWrap (fun r hr => hc.launchApp _ r hr) h
    rw [if_neg h32] at h
    by_cases h33 : t = "terminate_app"
    · rw [if_pos h33] at h
      exact envInv_mapWrap (fun r hr => hc.terminateApp _ r hr) h
    rw [if_neg h33] at h
    by_cases h34 : t = "get_app_state"
    · rw [if_pos h34] at h
      exact envShape_guard (fun r hr => hc.getAppState _ r hr) h
    rw [if_neg h34] at h
    by_cases h35 : t = "is_app_installed"
    · rw [if_pos h35] at h
      exact envShape_guard (fun r hr => hc.isAppInstalled _ r hr) h
    rw [if_neg h35] at h
    by_cases h36 : t = "install_app"
    · rw [if_pos h36] at h
      exact envShape_guard (fun r hr => hc.installApp _ r hr) h
    rw [if_neg h36] at h
    by_cases h37 : t = "remove_app"
    · rw [if_pos h37] at h
      exact envShape_guard (fun r hr => hc.removeApp _ r hr) h
    rw [if_neg h37] at h
    by_cases h38 : t = "get_app_strings"
    · rw [if_pos h38] at h
      exact envInv_mapWrap (fun r hr => hc.getAppStrings _ _ r hr) h
    rw [if_neg h38] at h
    by_cases h39 : t = "start_activity"
    · rw [if_pos h39] at h
      exact envShape_guard (fun r hr => hc.startActivity _ _ _ _ r hr) h
    rw [if_neg h39] at h
    by_cases h40 : t = "get_current_activity"
    · rw [if_pos h40] at h
      exact envInv_mapWrap hc.getCurrentActivity h
    rw [if_neg h40] at h
    by_cases h41 : t = "get_current_package"
    · rw [if_pos h41] at h
      exact envInv_mapWrap hc.getCurrentPackage h
    rw [if_neg h41] at h
    by_cases h42 : t = "background_app"
    · rw [if_pos h42] at h
      exact envInv_mapWrap (fun r hr => hc.backgroundApp _ r hr) h
    rw [if_neg h42] at h
    by_cases h43 : t = "reset_app"
    · rw [if_pos h43] at h
      exact envInv_mapWrap hc.resetApp h
    rw [if_neg h43] at h
    simp only [Except.ok.injEq] at h
    subst h
    exact envInvb_wrapError (append_beq_empty_false _ _ (by decide)) none

mutual
/-- Structural depth of a JS value (used to rule out a value being equal
to a strictly larger envelope containing it). -/
def jdepth : JVal → Nat
  | .vObj fs => jdepthF fs + 1
  | .vArr es => jdepthL es + 1
  | _ => 0

/-- Field-list part of `jdepth`. -/
def jdepthF : List (String × JVal) → Nat
  | [] => 0
  | (_, v) :: r => max (jdepth v) (jdepthF r)

/-- Element-list part of `jdepth`. -/
def jdepthL : List JVal → Nat
  | [] => 0
  | v :: r => max (jdepth v) (jdepthL r)
end

lemma wrapFresh_ne (v : JVal) :
    (.vObj [("success", .vBool true), ("message", .vStr "OK"), ("data", v)] : JVal) ≠ v := by
  intro he
  have hd := congrArg jdepth he
  simp [jdepth, jdepthF] at hd

/-- The observable outcome of one provider call made under the
dispatcher's `try`/`catch`: a returned value is normalized, a thrown one
is converted by the catch. -/
def callWrap (x : Except JErr JVal) : JVal :=
  match x with
  | .ok r => wrapResult r
  | .error e => wrapError "Tool execution failed" (some e)

lemma executeToolMethod_mapWrap {c : AppiumClient} {t : String} {args : JAssoc}
    {x : Except JErr JVal} (h : execBody c t args = x.map wrapResult) :
    executeToolMethod c t args = callWrap x := by
  unfold executeToolMethod
  rw [h]
  cases x <;> rfl

lemma hasKeyA_of_aGet_num {args : JAssoc} {k : String} {q : ℚ}
    (h : aGet args k = .vNum q) : hasKeyA args k = true := by
  induction args with
  | nil => simp [aGet] at h
  | cons p rest ih =>
    obtain ⟨k', v⟩ := p
    by_cases hk : k' = k
    · simp [hasKeyA, hk]
    · simp only [aGet, hk, if_false] at h
      simp [hasKeyA, hk, ih h]

lemma jsSub_num (a b : ℚ) : jsSub (.vNum a) (.vNum b) = .vNum (a - b) := rfl

lemma deriveDirJ_num (dx dy : ℚ) : deriveDirJ (.vNum dx) (.vNum dy) = deriveDir dx dy := by
  simp [deriveDirJ, deriveDir, jsAbs, jsGtB, jsLtB, toNumber]

/-- A provider whose every method returns the same plain value and holds
no raw driver. -/
def constClient (v : JVal) : AppiumClient where
  startSession := fun _ => .ok v
  endSession := .ok v
  getDeviceInfo := .ok v
  rotateDevice := fun _ => .ok v
  getScreenSize := .ok v
  findElement := fun _ _ => .ok v
  tapElement := fun _ _ => .ok v
  sendKeys := fun _ _ _ => .ok v
  swipe := fun _ _ => .ok v
  pinchZoom := fun _ _ _ => .ok v
  longPress := fun _ _ _ => .ok v
  doubleTap := fun _ _ => .ok v
  multiTouch := fun _ => .ok v
  scroll := fun _ _ => .ok v
  getAvailableContexts := .ok v
  getCurrentContext := .ok v
  switchToContext := fun _ => .ok v
  getContextDetails := .ok v
  switchToWebView := fun _ => .ok v
  switchToNative := .ok v
  isWebViewAvailable := .ok v
  getWebViewCount := .ok v
  launchApp := fun _ => .ok v
  terminateApp := fun _ => .ok v
  getAppState := fun _ => .ok v
  isAppInstalled := fun _ => .ok v
  installApp := fun _ => .ok v
  removeApp := fun _ => .ok v
  getAppStrings := fun _ _ => .ok v
  startActivity := fun _ _ _ _ => .ok v
  getCurrentActivity := .ok v
  getCurrentPackage := .ok v
  backgroundApp := fun _ => .ok v
  resetApp := .ok v
  driver := none

/-- A trivial concrete provider used by the witnesses. -/
def trivClient : AppiumClient := constClient (.vStr "done")

lemma providerOK_trivClient : ProviderOK trivClient := by
  constructor <;> (intros; rename_i hr; cases hr) <;> rfl

/-- C1: for every tool name that is not one of the cases of the routing
switch, `executeToolMethod` returns, for any argument bag and any
provider, the failure envelope whose message is exactly
"Unknown tool: " followed by the tool name — never a success response and
never a silent no-op. -/
theorem c1_unknown_tool_reports_error (c : AppiumClient) (t : String) (args : JAssoc)
    (h : t ∉ handledToolNames) :
    executeToolMethod c t args =
      .vObj [("success", .vBool false), ("message", .vStr ("Unknown tool: " ++ t)),
             ("error", .vUndefined)] := by
  have hne : ∀ s, s ∈ handledToolNames → ¬ t = s := fun s hs he => h (he ▸ hs)
  have h01 := hne "start_session" (by decide)
  have h02 := hne "end_session" (by decide)
  have h03 := hne "get_device_info" (by decide)
  have h04 := hne "rotate_device" (by decide)
  have h05 := hne "get_screen_size" (by decide)
  have h06 := hne "find_mobile_element" (by decide)
  have h07 := hne "tap_element" (by decide)
  have h08 := hne "send_mobile_keys" (by decide)
  have h09 := hne "get_element_text" (by decide)
  have h10 := hne "get_element_bounds" (by decide)
  have h11 := hne "swipe_screen" (by decide)
  have h12 := hne "swipe_element" (by decide)
  have h13 := hne "pinch_zoom" (by decide)
  have h14 := hne "long_press" (by decide)
  have h15 := hne "double_tap" (by decide)
  have h16 := hne "multi_touch" (by decide)
  have h17 := hne "scroll" (by decide)
  have h18 := hne "rotate_gesture" (by decide)
  have h19 := hne "take_mobile_screenshot" (by decide)
  have h20 := hne "get_page_source" (by decide)
  have h21 := hne "wait_mobile_element" (by decide)
  have h22 := hne "scroll_mobile" (by decide)
  have h23 := hne "long_press_element" (by decide)
  have h24 := hne "get_contexts" (by decide)
  have h25 := hne "get_current_context" (by decide)
  have h26 := hne "switch_context" (by decide)
  have h27 := hne "get_context_details" (by decide)
  have h28 := hne "switch_to_webview" (by decide)
  have h29 := hne "switch_to_native" (by decide)
  have h30 := hne "is_webview_available" (by decide)
  have h31 := hne "get_webview_count" (by decide)
  have h32 := hne "launch_app" (by decide)
  have h33 := hne "terminate_app" (by decide)
  have h34 := hne "get_app_state" (by decide)
  have h35 := hne "is_app_installed" (by decide)
  have h36 := hne "install_app" (by decide)
  have h37 := hne "remove_app" (by decide)
  have h38 := hne "get_app_strings" (by decide)
  have h39 := hne "start_activity" (by decide)
  have h40 := hne "get_current_activity" (by decide)
  have h41 := hne "get_current_package" (by decide)
  have h42 := hne "background_app" (by decide)
  have h43 := hne "reset_app" (by decide)
  have hv : validateToolInput t args = none := by
    have e1 : (("start_session" : String) == t) = false :=
      beq_eq_false_iff_ne.mpr fun he => h01 he.symm
    have e2 : (("end_session" : String) == t) = false :=
      beq_eq_false_iff_ne.mpr fun he => h02 he.symm
    have e3 : (("get_device_info" : String) == t) = false :=
      beq_eq_false_iff_ne.mpr fun he => h03 he.symm
    simp [validateToolInput, toolsRegistry, List.find?, e1, e2, e3]
  have hb : execBody c t args = .ok (wrapError ("Unknown tool: " ++ t) none) := by
    unfold execBody
    simp only [hv]
    rw [if_neg h01, if_neg h02, if_neg h03, if_neg h04, if_neg h05, if_neg h06, if_neg h07, if_neg h08, if_neg h09, if_neg h10, if_neg h11, if_neg h12, if_neg h13, if_neg h14, if_neg h15, if_neg h16, if_neg h17, if_neg h18, if_neg h19, if_neg h20, if_neg h21, if_neg h22, if_neg h23, if_neg h24, if_neg h25, if_neg h26, if_neg h27, if_neg h28, if_neg h29, if_neg h30, if_neg h31, if_neg h32, if_neg h33, if_neg h34, if_neg h35, if_neg h36, if_neg h37, if_neg h38, if_neg h39, if_neg h40, if_neg h41, if_neg h42, if_neg h43]
  unfold executeToolMethod
  rw [hb]
  rfl

/-- Witness for C1 at the concrete unknown tool name "fly_to_moon". -/
theorem c1_unknown_tool_witness :
    "fly_to_moon" ∉ handledToolNames ∧
    executeToolMethod trivClient "fly_to_moon" [] =
      .vObj [("success", .vBool false), ("message", .vStr "Unknown tool: fly_to_moon"),
             ("error", .vUndefined)] :=
  ⟨by decide, c1_unknown_tool_reports_error trivClient "fly_to_moon" [] (by decide)⟩

/-- A provider identical to `trivClient` except that `endSession` throws
`new Error("boom")`. -/
def throwEndClient : AppiumClient :=
  { trivClient with endSession := .error (.jsError "boom") }

/-- Counterexample to C2 as stated: when the provider call throws
`Error("boom")`, the returned message is the bare fixed string
"Tool execution failed" — the failure description "boom" is carried only
in the `error` field and does not occur in the message at all, so the
message is not any fixed prefix concatenated with the failure
description. -/
theorem c2_counterexample_message_without_description :
    executeToolMethod throwEndClient "end_session" [] =
      .vObj [("success", .vBool false), ("message", .vStr "Tool execution failed"),
             ("error", .vStr "boom")] ∧
    ¬ ("boom".toList <:+: "Tool execution failed".toList) :=
  ⟨rfl, by decide⟩

/-- C2 amended: a thrown provider failure never escapes
`executeToolMethod`; the catch converts it into a failure envelope whose
message is the fixed string "Tool execution failed" (with no failure
description appended) and whose `error` field carries the thrown
failure's payload — the `Error`'s message when an `Error` was thrown. -/
theorem c2_amended_catch_boundary (c : AppiumClient) (t : String) (args : JAssoc) (e : JErr)
    (h : execBody c t args = .error e) :
    executeToolMethod c t args =
      .vObj [("success", .vBool false), ("message", .vStr "Tool execution failed"),
             ("error", errPayload e)] ∧
    (∀ m : String, errPayload (.jsError m) = .vStr m) := by
  refine ⟨?_, fun m => rfl⟩
  unfold executeToolMethod
  rw [h]
  rfl

/-- Witness for C2 amended: the throwing `endSession` provider. -/
theorem c2_amended_witness :
    execBody throwEndClient "end_session" [] = .error (.jsError "boom") ∧
    (executeToolMethod throwEndClient "end_session" [] =
      .vObj [("success", .vBool false), ("message", .vStr "Tool execution failed"),
             ("error", errPayload (.jsError "boom"))] ∧
    (∀ m : String, errPayload (.jsError m) = .vStr m)) :=
  ⟨rfl, c2_amended_catch_boundary throwEndClient "end_session" [] (.jsError "boom") rfl⟩

/-- Counterexample to C5 as stated: `{success: 1}` does not have a
*boolean* `success` field, so by the claim it should be wrapped as
`{success: true, message: "OK", data: raw}`; the normalizer nevertheless
passes it through unchanged, because the code tests only `'success' in
res`, not the field's type. -/
theorem c5_counterexample_nonboolean_success :
    wrapResult (.vObj [("success", .vNum 1)]) = .vObj [("success", .vNum 1)] ∧
    wrapResult (.vObj [("success", .vNum 1)]) ≠
      .vObj [("success", .vBool true), ("message", .vStr "OK"),
             ("data", .vObj [("success", .vNum 1)])] :=
  ⟨rfl, by simp [wrapResult, truthy, isObjectT, hasKeyJ, hasKeyA]⟩

/-- C5 amended: the result normalizer passes a raw result through
unchanged exactly when it is a truthy (non-null) object carrying a
`success` key — of any type, boolean or not; every other raw result is
wrapped as `{success: true, message: "OK", data: raw}`. -/
theorem c5_amended_passthrough_iff_success_key :
    (∀ v : JVal, wrapResult v = v ↔ (truthy v && isObjectT v && hasKeyJ v "success") = true) ∧
    (∀ v : JVal, (truthy v && isObjectT v && hasKeyJ v "success") = false →
      wrapResult v = .vObj [("success", .vBool true), ("message", .vStr "OK"), ("data", v)]) := by
  constructor
  · intro v
    constructor
    · intro hw
      by_contra hcond
      rw [wrapResult, if_neg hcond] at hw
      exact wrapFresh_ne v hw
    · intro hcond
      rw [wrapResult, if_pos hcond]
  · intro v hcond
    rw [wrapResult, if_neg (by simp [hcond])]

/-- Witness for C5 amended: a success-keyed object passes through, a
plain number is wrapped. -/
theorem c5_amended_witness :
    wrapResult (.vObj [("success", .vNum 1)]) = .vObj [("success", .vNum 1)] ∧
    wrapResult (.vNum 3) =
      .vObj [("success", .vBool true), ("message", .vStr "OK"), ("data", .vNum 3)] :=
  ⟨(c5_amended_passthrough_iff_success_key.1 _).mpr rfl,
   c5_amended_passthrough_iff_success_key.2 _ rfl⟩

/-- A provider identical to `trivClient` except that `endSession` returns
an already-shaped result `{success: false}` with no message. -/
def badShapeClient : AppiumClient :=
  { trivClient with endSession := .ok (.vObj [("success", .vBool false)]) }

/-- Counterexample to C6 as stated: a provider result that already
carries a `success` key is passed through unchanged, so a provider
returning `{success: false}` (no message at all) makes
`executeToolMethod` return a response with `success=false` whose message
is not a non-empty string — the envelope invariant does not hold
unconditionally over provider results. -/
theorem c6_counterexample_passthrough_violation :
    executeToolMethod badShapeClient "end_session" [] = .vObj [("success", .vBool false)] ∧
    envInvb (.vObj [("success", .vBool false)]) = false :=
  ⟨rfl, rfl⟩

/-- C6 amended: whenever every value the provider's methods return is
envelope-safe throughout (each nested object carrying a `success` key
already satisfies the invariant), every response of `executeToolMethod`
satisfies the envelope invariant: `success=false` implies a non-empty
string message and no `data` field, and `success=true` implies no `error`
field.  In particular every envelope the dispatch layer itself
constructs satisfies it. -/
theorem c6_amended_envelope_invariant (c : AppiumClient) (hc : ProviderOK c)
    (t : String) (args : JAssoc) :
    envInvb (executeToolMethod c t args) = true := by
  cases hb : execBody c t args with
  | ok v =>
    unfold executeToolMethod
    rw [hb]
    exact envInv_execBody_ok hc hb
  | error e =>
    unfold executeToolMethod
    rw [hb]
    exact envInvb_wrapError (by decide) (some e)

/-- Witness for C6 amended at a concrete provider and tool call. -/
theorem c6_amended_witness :
    envInvb (executeToolMethod trivClient "tap_element"
      [("strategy", .vStr "accessibility id"), ("locator", .vStr "login")]) = true :=
  c6_amended_envelope_invariant trivClient providerOK_trivClient "tap_element"
    [("strategy", .vStr "accessibility id"), ("locator", .vStr "login")]

/-- Counterexample to C3 as stated: calling `start_session` with `{}`
misses all four schema-required fields, yet the resulting message names
only the first one — it does not even mention `platformVersion` — because
the schema validator is compiled with ajv's default options and stops at
the first violation. -/
theorem c3_counterexample_only_first_missing_reported :
    executeToolMethod trivClient "start_session" [] =
      .vObj [("success", .vBool false),
             ("message", .vStr "Invalid input: Missing required properties: platformName"),
             ("error", .vUndefined)] ∧
    ¬ ("platformVersion".toList <:+:
        ("Invalid input: Missing required properties: platformName").toList) :=
  ⟨rfl, by decide⟩

/-- C3 amended: the routing-case checker `validateRequiredProps` reports
every missing required field in one comma-joined message with the fixed
"Missing required properties: " lead-in (each missing field is in the
reported list), and is silent exactly when nothing is missing; the
schema-driven validator, by contrast, reports only the FIRST missing
required property of the registered `start_session` schema (ajv default
options, no all-errors mode), with the same lead-in — whichever of the
four required fields is the first one absent from the bag, the message
names it alone. -/
theorem c3_amended_missing_fields_reporting :
    (∀ (req : List String) (args : JAssoc) (m : String),
      validateRequiredProps req args = some m →
      m = "Missing required properties: " ++
          String.intercalate ", " (req.filter fun p => !(hasKeyA args p)) ∧
      ∀ p ∈ req, hasKeyA args p = false → p ∈ req.filter fun p => !(hasKeyA args p)) ∧
    (∀ (req : List String) (args : JAssoc),
      validateRequiredProps req args = none ↔ (req.filter fun p => !(hasKeyA args p)) = []) ∧
    (∀ (args : JAssoc) (p : String),
      (["platformName", "platformVersion", "deviceName", "automationName"].find?
        fun q => !(hasKeyA args q)) = some p →
      validateToolInput "start_session" args =
        some ("Missing required properties: " ++ p)) := by
  refine ⟨?_, ?_, ?_⟩
  · intro req args m h
    simp only [validateRequiredProps] at h
    split at h
    · exact absurd h (by simp)
    · simp only [Option.some.injEq] at h
      refine ⟨h.symm, ?_⟩
      intro p hp hmiss
      simp [List.mem_filter, hp, hmiss]
  · intro req args
    constructor
    · intro h
      simp only [validateRequiredProps] at h
      split at h
      · next hemp => exact List.isEmpty_iff.mp hemp
      · exact absurd h (by simp)
    · intro h
      simp [validateRequiredProps, h]
  · intro args p h
    simp [validateToolInput, toolsRegistry, ajvFirstError, startSessionSchema, h]

/-- Witness for C3 amended: both missing fields of a two-field check are
reported together; the schema path on a bag that does supply
`platformName` but none of the other three required fields reports only
the first missing one, `platformVersion`. -/
theorem c3_amended_witness :
    validateRequiredProps ["strategy", "locator"] [] =
      some "Missing required properties: strategy, locator" ∧
    "Missing required properties: strategy, locator" =
      "Missing required properties: " ++
        String.intercalate ", " (["strategy", "locator"].filter fun p => !(hasKeyA [] p)) ∧
    (["platformName", "platformVersion", "deviceName", "automationName"].find?
      fun q => !(hasKeyA [("platformName", JVal.vStr "Android")] q)) = some "platformVersion" ∧
    validateToolInput "start_session" [("platformName", JVal.vStr "Android")] =
      some ("Missing required properties: " ++ "platformVersion") :=
  ⟨rfl,
   (c3_amended_missing_fields_reporting.1 ["strategy", "locator"] [] _ rfl).1,
   rfl,
   c3_amended_missing_fields_reporting.2.2 [("platformName", JVal.vStr "Android")]
     "platformVersion" rfl⟩

/-- C7: evaluation of the code at the failing input — `start_session`
with an empty argument bag is rejected by the registered Phase-1
placeholder schema before the `capabilities` check in the switch is ever
reached, and the resulting message does not mention capabilities in any
letter case. -/
theorem c7_start_session_empty_args_behavior :
    executeToolMethod trivClient "start_session" [] =
      .vObj [("success", .vBool false),
             ("message", .vStr "Invalid input: Missing required properties: platformName"),
             ("error", .vUndefined)] ∧
    ¬ ("capabilities".toList <:+:
        (("Invalid input: Missing required properties: platformName").toList.map Char.toLower)) :=
  ⟨rfl, by decide⟩

lemma execBody_swipe_screen (c : AppiumClient) (args : JAssoc) :
    execBody c "swipe_screen" args =
      (if truthy (aGet args "direction") then
        (c.swipe (aGet args "direction") (aGet args "distance")).map wrapResult
      else if isNumberT (aGet args "startX") && isNumberT (aGet args "endX") &&
              isNumberT (aGet args "startY") && isNumberT (aGet args "endY") then
        (c.swipe (.vStr (deriveDirJ (jsSub (aGet args "endX") (aGet args "startX"))
                                    (jsSub (aGet args "endY") (aGet args "startY"))))
          (jvOr (aGet args "distance") (.vNum (1/2)))).map wrapResult
      else
        .ok (wrapError "swipe_screen requires direction or start/end coordinates" none)) := rfl

lemma execBody_scroll (c : AppiumClient) (args : JAssoc) :
    execBody c "scroll" args =
      (match validateRequiredProps ["deltaX", "deltaY"] args with
       | some err =>
         if isNumberT (aGet args "deltaX") || isNumberT (aGet args "deltaY") then
           (c.scroll (.vStr (deriveDirJ (jvOr (aGet args "deltaX") (.vNum 0))
                                        (jvOr (aGet args "deltaY") (.vNum 0))))
             (jvOr (aGet args "distance") (.vNum (1/2)))).map wrapResult
         else
           .ok (wrapError err none)
       | none =>
         (c.scroll (.vStr (deriveDirJ (jvOr (aGet args "deltaX") (.vNum 0))
                                      (jvOr (aGet args "deltaY") (.vNum 0))))
           (jvOr (aGet args "distance") (.vNum (1/2)))).map wrapResult) := rfl

lemma execBody_long_press_element (c : AppiumClient) (args : JAssoc) :
    execBody c "long_press_element" args =
      (match validateRequiredProps ["strategy", "locator"] args with
       | some err => .ok (wrapError err none)
       | none =>
         (c.findElement (aGet args "strategy") (aGet args "locator")).bind fun found =>
           if !(truthy found) || !(truthy (jGet found "success")) then
             .ok (wrapError "Element not found for long_press_element" none)
           else if !(truthy (jOptChain (jGet found "data") "bounds")) then
             .ok (wrapError "Element bounds not available for long_press_element" none)
           else
             (c.longPress
               (jsFloor (jsAdd (jGet (jOptChain (jGet found "data") "bounds") "x")
                 (jsDiv (jGet (jOptChain (jGet found "data") "bounds") "width") (.vNum 2))))
               (jsFloor (jsAdd (jGet (jOptChain (jGet found "data") "bounds") "y")
                 (jsDiv (jGet (jOptChain (jGet found "data") "bounds") "height") (.vNum 2))))
               (aGet args "durationMs")).map wrapResult) := rfl

lemma jvOr_num_zero (q : ℚ) : jvOr (.vNum q) (.vNum 0) = .vNum q := by
  by_cases h : q = 0
  · subst h; rfl
  · simp [jvOr, truthy, h]

lemma jsAdd_num (a b : ℚ) : jsAdd (.vNum a) (.vNum b) = .vNum (a + b) := rfl

lemma jsDiv_num_two (q : ℚ) : jsDiv (.vNum q) (.vNum 2) = .vNum (q / 2) := by
  norm_num [jsDiv, toNumber]

lemma jsFloor_num (q : ℚ) : jsFloor (.vNum q) = .vNum ((⌊q⌋ : ℤ) : ℚ) := rfl

/-- C4: with no explicit direction and numeric coordinates, the swipe and
scroll cases derive the direction by `deriveDir`, which picks the
horizontal axis exactly when `|dx| > |dy|` (left when `dx < 0`, right
when `dx > 0`) and the vertical axis otherwise (up when `dy < 0`, down
otherwise, ties going vertical), and pass it to the provider gesture. -/
theorem c4_direction_derivation :
    (∀ (c : AppiumClient) (args : JAssoc) (sx sy ex ey : ℚ),
      truthy (aGet args "direction") = false →
      aGet args "startX" = .vNum sx → aGet args "endX" = .vNum ex →
      aGet args "startY" = .vNum sy → aGet args "endY" = .vNum ey →
      executeToolMethod c "swipe_screen" args =
        callWrap (c.swipe (.vStr (deriveDir (ex - sx) (ey - sy)))
          (jvOr (aGet args "distance") (.vNum (1/2))))) ∧
    (∀ (c : AppiumClient) (args : JAssoc) (ddx ddy : ℚ),
      aGet args "deltaX" = .vNum ddx → aGet args "deltaY" = .vNum ddy →
      executeToolMethod c "scroll" args =
        callWrap (c.scroll (.vStr (deriveDir ddx ddy))
          (jvOr (aGet args "distance") (.vNum (1/2))))) ∧
    (∀ dx dy : ℚ, |dx| > |dy| → deriveDir dx dy = if dx < 0 then "left" else "right") ∧
    (∀ dx dy : ℚ, ¬(|dx| > |dy|) → deriveDir dx dy = if dy < 0 then "up" else "down") := by
  refine ⟨?_, ?_, ?_, ?_⟩
  · intro c args sx sy ex ey hdir hsx hex hsy hey
    apply executeToolMethod_mapWrap
    rw [execBody_swipe_screen]
    rw [if_neg (by simp [hdir]), if_pos (by simp [hsx, hex, hsy, hey, isNumberT])]
    rw [hsx, hex, hsy, hey, jsSub_num, jsSub_num, deriveDirJ_num]
  · intro c args ddx ddy hdx hdy
    apply executeToolMethod_mapWrap
    rw [execBody_scroll]
    have hvrp : validateRequiredProps ["deltaX", "deltaY"] args = none := by
      simp [validateRequiredProps, hasKeyA_of_aGet_num hdx, hasKeyA_of_aGet_num hdy]
    simp only [hvrp]
    rw [hdx, hdy, jvOr_num_zero, jvOr_num_zero, deriveDirJ_num]
  · intro dx dy h
    simp [deriveDir, h]
  · intro dx dy h
    simp [deriveDir, h]

/-- Concrete argument bag used by the C4 witness. -/
def c4args : JAssoc :=
  [("startX", .vNum 500), ("startY", .vNum 800), ("endX", .vNum 500), ("endY", .vNum 200),
   ("deltaX", .vNum 0), ("deltaY", .vNum (-7))]

/-- Witness for C4 at the spec's scenario `startX=500, startY=800,
endX=500, endY=200` (the derived direction is "up"), and at a bag
holding only numeric `deltaX=3, deltaY=-1` for the scroll half. -/
theorem c4_direction_witness :
    truthy (aGet c4args "direction") = false ∧
    deriveDir ((500 : ℚ) - 500) ((200 : ℚ) - 800) = "up" ∧
    executeToolMethod trivClient "swipe_screen" c4args =
      callWrap (trivClient.swipe (.vStr (deriveDir ((500 : ℚ) - 500) ((200 : ℚ) - 800)))
        (jvOr (aGet c4args "distance") (.vNum (1/2)))) ∧
    executeToolMethod trivClient "scroll" [("deltaX", .vNum 3), ("deltaY", .vNum (-1))] =
      callWrap (trivClient.scroll (.vStr (deriveDir (3 : ℚ) (-1)))
        (jvOr (aGet [("deltaX", JVal.vNum 3), ("deltaY", JVal.vNum (-1))] "distance")
          (.vNum (1/2)))) :=
  ⟨rfl, by norm_num [deriveDir],
   c4_direction_derivation.1 trivClient c4args 500 800 500 200 rfl rfl rfl rfl rfl,
   c4_direction_derivation.2.1 trivClient [("deltaX", JVal.vNum 3), ("deltaY", JVal.vNum (-1))]
     3 (-1) rfl rfl⟩

/-- C8: with neither a truthy explicit direction nor a complete set of
number-typed start/end coordinates, `swipe_screen` fails with the
descriptive message, for every provider — in particular no provider swipe
with a guessed default direction is ever invoked (the response does not
depend on the provider at all). -/
theorem c8_swipe_screen_no_guessed_default (c : AppiumClient) (args : JAssoc)
    (hdir : truthy (aGet args "direction") = false)
    (hcoords : (isNumberT (aGet args "startX") && isNumberT (aGet args "endX") &&
                isNumberT (aGet args "startY") && isNumberT (aGet args "endY")) = false) :
    executeToolMethod c "swipe_screen" args =
      .vObj [("success", .vBool false),
             ("message", .vStr "swipe_screen requires direction or start/end coordinates"),
             ("error", .vUndefined)] := by
  unfold executeToolMethod
  rw [execBody_swipe_screen, if_neg (by simp [hdir]), if_neg (by simp [hcoords])]
  rfl

/-- Witness for C8: an argument bag with only a numeric `startX` and no
direction. -/
theorem c8_swipe_screen_witness :
    truthy (aGet [("startX", JVal.vNum 5)] "direction") = false ∧
    (isNumberT (aGet [("startX", JVal.vNum 5)] "startX") &&
     isNumberT (aGet [("startX", JVal.vNum 5)] "endX") &&
     isNumberT (aGet [("startX", JVal.vNum 5)] "startY") &&
     isNumberT (aGet [("startX", JVal.vNum 5)] "endY")) = false ∧
    executeToolMethod trivClient "swipe_screen" [("startX", JVal.vNum 5)] =
      .vObj [("success", .vBool false),
             ("message", .vStr "swipe_screen requires direction or start/end coordinates"),
             ("error", .vUndefined)] :=
  ⟨rfl, rfl, c8_swipe_screen_no_guessed_default trivClient [("startX", JVal.vNum 5)] rfl rfl⟩

/-- C10: zero deltas do not fail — with equal start and end coordinates
(`dx = dy = 0`) the horizontal test `|0| > |0|` is false and `0 < 0` is
false, so the vertical branch derives "down" and the provider gesture is
invoked with it; likewise `scroll` with `deltaX = deltaY = 0`. -/
theorem c10_zero_delta_derives_down :
    (∀ (c : AppiumClient) (args : JAssoc) (x0 y0 : ℚ),
      truthy (aGet args "direction") = false →
      aGet args "startX" = .vNum x0 → aGet args "endX" = .vNum x0 →
      aGet args "startY" = .vNum y0 → aGet args "endY" = .vNum y0 →
      executeToolMethod c "swipe_screen" args =
        callWrap (c.swipe (.vStr "down") (jvOr (aGet args "distance") (.vNum (1/2))))) ∧
    (∀ (c : AppiumClient) (args : JAssoc),
      aGet args "deltaX" = .vNum 0 → aGet args "deltaY" = .vNum 0 →
      executeToolMethod c "scroll" args =
        callWrap (c.scroll (.vStr "down") (jvOr (aGet args "distance") (.vNum (1/2))))) := by
  constructor
  · intro c args x0 y0 hdir hsx hex hsy hey
    have hdown : deriveDir (x0 - x0) (y0 - y0) = "down" := by simp [deriveDir]
    apply executeToolMethod_mapWrap
    rw [execBody_swipe_screen]
    rw [if_neg (by simp [hdir]), if_pos (by simp [hsx, hex, hsy, hey, isNumberT])]
    rw [hsx, hex, hsy, hey, jsSub_num, jsSub_num, deriveDirJ_num, hdown]
  · intro c args hdx hdy
    apply executeToolMethod_mapWrap
    rw [execBody_scroll]
    have hvrp : validateRequiredProps ["deltaX", "deltaY"] args = none := by
      simp [validateRequiredProps, hasKeyA_of_aGet_num hdx, hasKeyA_of_aGet_num hdy]
    simp only [hvrp]
    rw [hdx, hdy, jvOr_num_zero, deriveDirJ_num]
    have : deriveDir (0 : ℚ) 0 = "down" := by simp [deriveDir]
    rw [this]

/-- Concrete argument bag used by the C10 witness. -/
def c10args : JAssoc :=
  [("startX", .vNum 5), ("startY", .vNum 6), ("endX", .vNum 5), ("endY", .vNum 6),
   ("deltaX", .vNum 0), ("deltaY", .vNum 0)]

/-- Witness for C10: the zero-delta swipe call, and a scroll call whose
bag holds nothing but `deltaX=0, deltaY=0`, both reach the provider with
direction "down". -/
theorem c10_zero_delta_witness :
    truthy (aGet c10args "direction") = false ∧
    executeToolMethod trivClient "swipe_screen" c10args =
      callWrap (trivClient.swipe (.vStr "down") (jvOr (aGet c10args "distance") (.vNum (1/2)))) ∧
    executeToolMethod trivClient "scroll" [("deltaX", JVal.vNum 0), ("deltaY", JVal.vNum 0)] =
      callWrap (trivClient.scroll (.vStr "down")
        (jvOr (aGet [("deltaX", JVal.vNum 0), ("deltaY", JVal.vNum 0)] "distance")
          (.vNum (1/2)))) :=
  ⟨rfl,
   c10_zero_delta_derives_down.1 trivClient c10args 5 6 rfl rfl rfl rfl rfl,
   c10_zero_delta_derives_down.2 trivClient [("deltaX", JVal.vNum 0), ("deltaY", JVal.vNum 0)]
     rfl rfl⟩

/-- C9: `long_press_element` resolves the element first; an unsuccessful
lookup result (or a falsy one) fails without any gesture, a successful
result without truthy bounds fails without any gesture, and a successful
result with a bounds object of numeric fields invokes the
coordinate-based `longPress` at exactly
`(floor(x + width/2), floor(y + height/2))` with the supplied duration. -/
theorem c9_long_press_element_center (c : AppiumClient) (args : JAssoc) (found : JVal)
    (hks : hasKeyA args "strategy" = true) (hkl : hasKeyA args "locator" = true)
    (hf : c.findElement (aGet args "strategy") (aGet args "locator") = .ok found) :
    ((truthy found && truthy (jGet found "success")) = false →
      executeToolMethod c "long_press_element" args =
        .vObj [("success", .vBool false),
               ("message", .vStr "Element not found for long_press_element"),
               ("error", .vUndefined)]) ∧
    ((truthy found && truthy (jGet found "success")) = true →
      truthy (jOptChain (jGet found "data") "bounds") = false →
      executeToolMethod c "long_press_element" args =
        .vObj [("success", .vBool false),
               ("message", .vStr "Element bounds not available for long_press_element"),
               ("error", .vUndefined)]) ∧
    (∀ (bfs : List (String × JVal)) (bx by0 bw bh : ℚ),
      (truthy found && truthy (jGet found "success")) = true →
      jOptChain (jGet found "data") "bounds" = .vObj bfs →
      aGet bfs "x" = .vNum bx → aGet bfs "y" = .vNum by0 →
      aGet bfs "width" = .vNum bw → aGet bfs "height" = .vNum bh →
      executeToolMethod c "long_press_element" args =
        callWrap (c.longPress (.vNum ((⌊bx + bw / 2⌋ : ℤ) : ℚ))
          (.vNum ((⌊by0 + bh / 2⌋ : ℤ) : ℚ)) (aGet args "durationMs"))) := by
  have hvrp : validateRequiredProps ["strategy", "locator"] args = none := by
    simp [validateRequiredProps, hks, hkl]
  refine ⟨?_, ?_, ?_⟩
  · intro h1
    unfold executeToolMethod
    rw [execBody_long_press_element]
    simp only [hvrp]
    rw [hf]
    simp only [Except.bind]
    rw [if_pos (show (!(truthy found) || !(truthy (jGet found "success"))) = true by
      rw [← Bool.not_and]; simp [h1])]
    rfl
  · intro h1 h2
    unfold executeToolMethod
    rw [execBody_long_press_element]
    simp only [hvrp]
    rw [hf]
    simp only [Except.bind]
    rw [if_neg (show ¬((!(truthy found) || !(truthy (jGet found "success"))) = true) by
      rw [← Bool.not_and]; simp [h1])]
    rw [if_pos (show (!(truthy (jOptChain (jGet found "data") "bounds"))) = true by simp [h2])]
    rfl
  · intro bfs bx by0 bw bh h1 hb hbx hby hbw hbh
    apply executeToolMethod_mapWrap
    rw [execBody_long_press_element]
    simp only [hvrp]
    rw [hf]
    simp only [Except.bind]
    rw [if_neg (show ¬((!(truthy found) || !(truthy (jGet found "success"))) = true) by
      rw [← Bool.not_and]; simp [h1])]
    rw [if_neg (show ¬((!(truthy (jOptChain (jGet found "data") "bounds"))) = true) by
      simp [hb, truthy])]
    rw [hb]
    simp only [jGet]
    rw [hbx, hby, hbw, hbh, jsDiv_num_two, jsDiv_num_two, jsAdd_num, jsAdd_num,
      jsFloor_num, jsFloor_num]

/-- A provider whose `findElement` succeeds with a bounds rectangle
`x=10, y=20, width=5, height=7`. -/
def elemClient : AppiumClient :=
  { trivClient with
    findElement := fun _ _ => .ok (.vObj
      [("success", .vBool true),
       ("data", .vObj [("bounds", .vObj
         [("x", .vNum 10), ("y", .vNum 20), ("width", .vNum 5), ("height", .vNum 7)])])]) }

/-- The `findElement` result of `elemClient`. -/
def elemFound : JVal :=
  .vObj [("success", .vBool true),
         ("data", .vObj [("bounds", .vObj
           [("x", .vNum 10), ("y", .vNum 20), ("width", .vNum 5), ("height", .vNum 7)])])]

/-- Witness for C9: the center of the 10/20/5/7 rectangle is pressed at
`(12, 23)` (the floors of 12.5 and 23.5). -/
theorem c9_long_press_element_witness :
    executeToolMethod elemClient "long_press_element"
        [("strategy", .vStr "id"), ("locator", .vStr "foo")] =
      callWrap (elemClient.longPress (.vNum ((⌊(10 : ℚ) + 5 / 2⌋ : ℤ) : ℚ))
        (.vNum ((⌊(20 : ℚ) + 7 / 2⌋ : ℤ) : ℚ))
        (aGet [("strategy", .vStr "id"), ("locator", .vStr "foo")] "durationMs")) ∧
    ((⌊(10 : ℚ) + 5 / 2⌋ : ℤ) : ℚ) = 12 ∧ ((⌊(20 : ℚ) + 7 / 2⌋ : ℤ) : ℚ) = 23 :=
  ⟨(c9_long_press_element_center elemClient
      [("strategy", .vStr "id"), ("locator", .vStr "foo")] elemFound rfl rfl rfl).2.2
      [("x", .vNum 10), ("y", .vNum 20), ("width", .vNum 5), ("height", .vNum 7)]
      10 20 5 7 rfl rfl rfl rfl rfl rfl,
   by norm_num, by norm_num⟩
